import Mathlib

/-!
# Lifecycle core of the XEN driver (`src/xen/driver.c`)

A shallow embedding of `XenTouch`, `DllInitialize` and `DllUnload`.

* Calls into other modules (the log, the six subsystems, the hypervisor) are
  recorded, in program order, as a list of `Event`s; what those calls return
  is supplied by a `Host` record, since their code lives outside `driver.c`.
* The static `Driver` record and the static `Reference` counter of `XenTouch`
  are passed in and returned explicitly.
* `ASSERT` comes from a header that is not among the sources, so whether a
  false assertion stops the driver is the `Host.DBG` parameter: a checked
  build stops (`Outcome.assertFailed`), a free build carries on.
* `goto failN` labels are the functions `fail7 … fail1`, each falling through
  to the next exactly as the labels do.
-/

namespace Xen

/-! ## Basic types -/

/-- The kernel status type, a signed 32-bit `LONG`. -/
abbrev NTSTATUS := Int

/-- An unsigned 32-bit `ULONG`; arithmetic on it is reduced modulo `ULONG_MOD`. -/
abbrev ULONG := Nat

/-- The number of values of a `ULONG`: 2^32. -/
def ULONG_MOD : Nat := 4294967296

def STATUS_SUCCESS : NTSTATUS := 0

/-- The value `(NTSTATUS)0xC0000424L`, read as a signed 32-bit integer. -/
def STATUS_INCOMPATIBLE_DRIVER_BLOCKED : NTSTATUS := 0xC0000424 - 4294967296

/-- The macro `NT_SUCCESS(Status)`: `((NTSTATUS)(Status)) >= 0`. -/
def NT_SUCCESS (Status : NTSTATUS) : Bool := decide (Status ≥ 0)

/-- A pointer to a log disposition; `0` is `NULL`. -/
abbrev PLOG_DISPOSITION := Nat

/-- The severity bits `LOG_LEVEL_*`; a mask is the list of the bits or-ed together. -/
inductive LOG_LEVEL
  | TRACE
  | INFO
  | WARNING
  | ERROR
  | CRITICAL
  deriving DecidableEq, Repr

/-- The subsystems whose `Initialize`/`Teardown` pair `driver.c` calls. -/
inductive Subsystem
  | Acpi
  | System
  | Hypercall
  | BugCheck
  | Module
  | Process
  deriving DecidableEq, Repr

/-- An argument of a printf-style log line. -/
inductive Arg
  | num (n : Int)
  | str (s : String)
  deriving DecidableEq, Repr

/-- One observable call made by the driver, in program order. `Initialize s`
stands for `AcpiInitialize()`, `SystemInitialize()`, … and `Teardown s` for
`AcpiTeardown()`, `SystemTeardown()`, … The callback handed to
`LogAddDisposition` is `DriverOutputBuffer` at both call sites and is left out;
`Argument` is the port it is given. -/
inductive Event
  | ExInitializeDriverRuntime
  | WdmlibProcgrpInitialize
  | Trace (Format : String)
  | Info (Format : String) (Args : List Arg)
  | Error (Format : String) (Args : List Arg)
  | LogPrintf (Level : LOG_LEVEL) (Format : String) (Args : List Arg)
  | XenVersion
  | XenVersionExtra
  | LogInitialize
  | LogAddDisposition (Mask : List LOG_LEVEL) (Argument : Nat)
  | LogRemoveDisposition (Disposition : PLOG_DISPOSITION)
  | LogTeardown
  | Initialize (s : Subsystem)
  | Teardown (s : Subsystem)
  deriving DecidableEq, Repr

/-- The two expressions that `driver.c` asserts. -/
inductive Assertion
  | NT_SUCCESS_status
  | IsZeroMemory_Driver
  deriving DecidableEq, Repr

/-- How a call ends: it returns a status, or a checked build stops at an assertion. -/
inductive Outcome
  | returned (status : NTSTATUS)
  | assertFailed (a : Assertion)
  deriving DecidableEq, Repr

/-- The result of running a function: how it ended, the static state it left
behind and the calls it made. -/
structure Run (σ : Type) where
  outcome : Outcome
  state : σ
  trace : List Event
  deriving DecidableEq, Repr

/-- The constants of `version.h` and `__XEN_INTERFACE_VERSION__`, which are
fixed when the driver is built. -/
structure Build where
  MAJOR_VERSION : ULONG
  MINOR_VERSION : ULONG
  MICRO_VERSION : ULONG
  BUILD_NUMBER : ULONG
  DAY : Nat
  MONTH : Nat
  YEAR : Nat
  XEN_INTERFACE_VERSION : Nat

/-- What the surroundings of `driver.c` answer.
`LogAddDisposition Mask Argument old` gives the status of the call and the
value found in the out-parameter afterwards, `old` being its value before. -/
structure Host where
  DBG : Bool
  InitSafeBootMode : ULONG
  XenVersion : NTSTATUS × ULONG × ULONG
  XenVersionExtra : NTSTATUS × String
  LogInitialize : NTSTATUS
  LogAddDisposition : List LOG_LEVEL → Nat → PLOG_DISPOSITION → NTSTATUS × PLOG_DISPOSITION
  Initialize : Subsystem → NTSTATUS

/-- The record `XEN_DRIVER`. -/
structure XEN_DRIVER where
  TraceDisposition : PLOG_DISPOSITION
  InfoDisposition : PLOG_DISPOSITION
  deriving DecidableEq, Repr

/-- Modelled from the spec: `IsZeroMemory` is declared in a header that is not
among the sources; "the driver state record is entirely zero-valued" is that
both pointers of the record are `NULL`. -/
def IsZeroMemory (Driver : XEN_DRIVER) : Bool :=
  Driver.TraceDisposition == 0 && Driver.InfoDisposition == 0

/-! ## Sequencing -/

/-- Put the calls `evs` in front of the calls of `r`. -/
def emit {σ : Type} (evs : List Event) (r : Run σ) : Run σ :=
  { r with trace := evs ++ r.trace }

/-- The statement `ASSERT(cond)`: in a checked build a false condition stops
the driver with the state `st`; otherwise execution goes on with `k`. -/
def ASSERT {σ : Type} (H : Host) (a : Assertion) (cond : Bool) (st : σ) (k : Run σ) : Run σ :=
  if H.DBG && !cond then ⟨Outcome.assertFailed a, st, []⟩ else k

/-! ## `XenTouch` -/

/-- The function `XenTouch`; `Reference` is its static counter, returned as the state. -/
def XenTouch (B : Build) (H : Host) (Reference : ULONG) (Name : String)
    (MajorVersion MinorVersion MicroVersion BuildNumber : ULONG) : Run ULONG :=
  if MajorVersion ≠ B.MAJOR_VERSION ∨
     MinorVersion ≠ B.MINOR_VERSION ∨
     MicroVersion ≠ B.MICRO_VERSION ∨
     BuildNumber ≠ B.BUILD_NUMBER then
    -- fail1:
    emit [Event.Info "MODULE '%s' NOT COMPATIBLE (REBOOT REQUIRED)\n" [Arg.str Name]]
      ⟨Outcome.returned STATUS_INCOMPATIBLE_DRIVER_BLOCKED, Reference, []⟩
  else
    -- if (Reference++ != 0) goto done;
    let old := Reference
    let Reference := (Reference + 1) % ULONG_MOD
    if old ≠ 0 then
      ⟨Outcome.returned STATUS_SUCCESS, Reference, []⟩
    else
      emit [Event.XenVersion] <|
      ASSERT H Assertion.NT_SUCCESS_status (NT_SUCCESS H.XenVersion.1) Reference <|
      emit [Event.XenVersionExtra] <|
      ASSERT H Assertion.NT_SUCCESS_status (NT_SUCCESS H.XenVersionExtra.1) Reference <|
      emit [Event.LogPrintf LOG_LEVEL.INFO
              "XEN: %u.%u%s (__XEN_INTERFACE_VERSION__ = %08x)\n"
              [Arg.num H.XenVersion.2.1, Arg.num H.XenVersion.2.2,
               Arg.str H.XenVersionExtra.2, Arg.num B.XEN_INTERFACE_VERSION]]
      ⟨Outcome.returned STATUS_SUCCESS, Reference, []⟩

/-! ## `DllInitialize` and `DllUnload` -/

def XEN_PORT : Nat := 0xE9

def QEMU_PORT : Nat := 0x12

/-- The label `fail1` of `DllInitialize`. -/
def fail1 (H : Host) (status : NTSTATUS) (Driver : XEN_DRIVER) : Run XEN_DRIVER :=
  emit [Event.Error "fail1 (%08x)" [Arg.num status]] <|
  ASSERT H Assertion.IsZeroMemory_Driver (IsZeroMemory Driver) Driver <|
  ⟨Outcome.returned status, Driver, []⟩

/-- The label `fail2` of `DllInitialize`, falling through to `fail1`. -/
def fail2 (H : Host) (status : NTSTATUS) (Driver : XEN_DRIVER) : Run XEN_DRIVER :=
  emit [Event.Error "fail2\n" [], Event.LogRemoveDisposition Driver.InfoDisposition] <|
  let Driver := { Driver with InfoDisposition := 0 }
  emit [Event.LogRemoveDisposition Driver.TraceDisposition] <|
  let Driver := { Driver with TraceDisposition := 0 }
  emit [Event.LogTeardown] <|
  fail1 H status Driver

/-- The label `fail3` of `DllInitialize`, falling through to `fail2`. -/
def fail3 (H : Host) (status : NTSTATUS) (Driver : XEN_DRIVER) : Run XEN_DRIVER :=
  emit [Event.Error "fail3\n" [], Event.Teardown Subsystem.Acpi] <|
  fail2 H status Driver

/-- The label `fail4` of `DllInitialize`, falling through to `fail3`. -/
def fail4 (H : Host) (status : NTSTATUS) (Driver : XEN_DRIVER) : Run XEN_DRIVER :=
  emit [Event.Error "fail4\n" [], Event.Teardown Subsystem.System] <|
  fail3 H status Driver

/-- The label `fail5` of `DllInitialize`, falling through to `fail4`. -/
def fail5 (H : Host) (status : NTSTATUS) (Driver : XEN_DRIVER) : Run XEN_DRIVER :=
  emit [Event.Error "fail5\n" [], Event.Teardown Subsystem.Hypercall] <|
  fail4 H status Driver

/-- The label `fail6` of `DllInitialize`, falling through to `fail5`. -/
def fail6 (H : Host) (status : NTSTATUS) (Driver : XEN_DRIVER) : Run XEN_DRIVER :=
  emit [Event.Error "fail6\n" [], Event.Teardown Subsystem.BugCheck] <|
  fail5 H status Driver

/-- The label `fail7` of `DllInitialize`, falling through to `fail6`. -/
def fail7 (H : Host) (status : NTSTATUS) (Driver : XEN_DRIVER) : Run XEN_DRIVER :=
  emit [Event.Error "fail7\n" [], Event.Teardown Subsystem.Module] <|
  fail6 H status Driver

/-- The label `done` of `DllInitialize`. -/
def DllInitialize.done (Driver : XEN_DRIVER) : Run XEN_DRIVER :=
  emit [Event.Trace "<====\n"] <|
  ⟨Outcome.returned STATUS_SUCCESS, Driver, []⟩

/-- The function `DllInitialize`; the `RegistryPath` parameter is unreferenced. -/
def DllInitialize (B : Build) (H : Host) (Driver : XEN_DRIVER) : Run XEN_DRIVER :=
  emit [Event.ExInitializeDriverRuntime, Event.WdmlibProcgrpInitialize,
        Event.Trace "====>\n"] <|
  if H.InitSafeBootMode > 0 then DllInitialize.done Driver else
  emit [Event.LogInitialize] <|
  let status := H.LogInitialize
  if !NT_SUCCESS status then fail1 H status Driver else
  emit [Event.LogAddDisposition [LOG_LEVEL.TRACE, LOG_LEVEL.CRITICAL] XEN_PORT] <|
  let r := H.LogAddDisposition [LOG_LEVEL.TRACE, LOG_LEVEL.CRITICAL] XEN_PORT
             Driver.TraceDisposition
  let status := r.1
  let Driver := { Driver with TraceDisposition := r.2 }
  ASSERT H Assertion.NT_SUCCESS_status (NT_SUCCESS status) Driver <|
  emit [Event.LogAddDisposition
          [LOG_LEVEL.INFO, LOG_LEVEL.WARNING, LOG_LEVEL.ERROR, LOG_LEVEL.CRITICAL]
          QEMU_PORT] <|
  let r := H.LogAddDisposition
             [LOG_LEVEL.INFO, LOG_LEVEL.WARNING, LOG_LEVEL.ERROR, LOG_LEVEL.CRITICAL]
             QEMU_PORT Driver.InfoDisposition
  let status := r.1
  let Driver := { Driver with InfoDisposition := r.2 }
  ASSERT H Assertion.NT_SUCCESS_status (NT_SUCCESS status) Driver <|
  emit [Event.Info "%d.%d.%d (%d) (%02d.%02d.%04d)\n"
          [Arg.num B.MAJOR_VERSION, Arg.num B.MINOR_VERSION, Arg.num B.MICRO_VERSION,
           Arg.num B.BUILD_NUMBER, Arg.num B.DAY, Arg.num B.MONTH, Arg.num B.YEAR]] <|
  emit [Event.Initialize Subsystem.Acpi] <|
  let status := H.Initialize Subsystem.Acpi
  if !NT_SUCCESS status then fail2 H status Driver else
  emit [Event.Initialize Subsystem.System] <|
  let status := H.Initialize Subsystem.System
  if !NT_SUCCESS status then fail3 H status Driver else
  emit [Event.Initialize Subsystem.Hypercall] <|
  let status := H.Initialize Subsystem.Hypercall
  if !NT_SUCCESS status then fail4 H status Driver else
  emit [Event.Initialize Subsystem.BugCheck] <|
  let status := H.Initialize Subsystem.BugCheck
  if !NT_SUCCESS status then fail5 H status Driver else
  emit [Event.Initialize Subsystem.Module] <|
  let status := H.Initialize Subsystem.Module
  if !NT_SUCCESS status then fail6 H status Driver else
  emit [Event.Initialize Subsystem.Process] <|
  let status := H.Initialize Subsystem.Process
  if !NT_SUCCESS status then fail7 H status Driver else
  DllInitialize.done Driver

/-- The function `DllUnload`. -/
def DllUnload (B : Build) (H : Host) (Driver : XEN_DRIVER) : Run XEN_DRIVER :=
  emit [Event.Trace "====>\n"] <|
  -- done:
  let done (Driver : XEN_DRIVER) : Run XEN_DRIVER :=
    ASSERT H Assertion.IsZeroMemory_Driver (IsZeroMemory Driver) Driver <|
    emit [Event.Trace "<====\n"] <|
    ⟨Outcome.returned STATUS_SUCCESS, Driver, []⟩
  if H.InitSafeBootMode > 0 then done Driver else
  emit [Event.Teardown Subsystem.Process,
        Event.Teardown Subsystem.Module,
        Event.Teardown Subsystem.BugCheck,
        Event.Teardown Subsystem.Hypercall,
        Event.Teardown Subsystem.System,
        Event.Info "XEN %d.%d.%d (%d) (%02d.%02d.%04d)\n"
          [Arg.num B.MAJOR_VERSION, Arg.num B.MINOR_VERSION, Arg.num B.MICRO_VERSION,
           Arg.num B.BUILD_NUMBER, Arg.num B.DAY, Arg.num B.MONTH, Arg.num B.YEAR],
        Event.LogRemoveDisposition Driver.InfoDisposition] <|
  let Driver := { Driver with InfoDisposition := 0 }
  emit [Event.LogRemoveDisposition Driver.TraceDisposition] <|
  let Driver := { Driver with TraceDisposition := 0 }
  emit [Event.LogTeardown] <|
  done Driver

/-! ## Reading a trace -/

/-- The position of a subsystem among the `Initialize` calls of `DllInitialize`
(source lines 166 to 188). -/
def Subsystem.step : Subsystem → Nat
  | Subsystem.Acpi => 0
  | Subsystem.System => 1
  | Subsystem.Hypercall => 2
  | Subsystem.BugCheck => 3
  | Subsystem.Module => 4
  | Subsystem.Process => 5

/-- The subsystems listed by increasing `step`. -/
def initOrder : List Subsystem :=
  [Subsystem.Acpi, Subsystem.System, Subsystem.Hypercall, Subsystem.BugCheck,
   Subsystem.Module, Subsystem.Process]

/-- The subsystems whose `Teardown` a trace calls, in call order. -/
def teardowns (tr : List Event) : List Subsystem :=
  tr.filterMap fun e => match e with
    | Event.Teardown s => some s
    | _ => none

/-- The subsystems whose `Initialize` a trace calls, in call order. -/
def initializes (tr : List Event) : List Subsystem :=
  tr.filterMap fun e => match e with
    | Event.Initialize s => some s
    | _ => none

/-- The `Error(...)` lines of a trace, in order. -/
def errorLines (tr : List Event) : List Event :=
  tr.filter fun e => match e with
    | Event.Error _ _ => true
    | _ => false

/-- The calls of a trace that belong to the log or subsystem lifecycle:
`LogInitialize`, `LogTeardown`, adding or removing a disposition, and every
subsystem `Initialize` or `Teardown`. -/
def lifecycleCalls (tr : List Event) : List Event :=
  tr.filter fun e => match e with
    | Event.LogInitialize => true
    | Event.LogAddDisposition _ _ => true
    | Event.LogRemoveDisposition _ => true
    | Event.LogTeardown => true
    | Event.Initialize _ => true
    | Event.Teardown _ => true
    | _ => false

/-- Both `LogAddDisposition` calls of `DllInitialize` return a success status,
which is what the two `ASSERT(NT_SUCCESS(status))` after them check. -/
def LogAddDispositionsSucceed (H : Host) (Driver : XEN_DRIVER) : Bool :=
  NT_SUCCESS (H.LogAddDisposition [LOG_LEVEL.TRACE, LOG_LEVEL.CRITICAL] XEN_PORT
                Driver.TraceDisposition).1 &&
  NT_SUCCESS (H.LogAddDisposition
                [LOG_LEVEL.INFO, LOG_LEVEL.WARNING, LOG_LEVEL.ERROR, LOG_LEVEL.CRITICAL]
                QEMU_PORT Driver.InfoDisposition).1

/-- The statuses returned by the fallible steps of `DllInitialize`, in call
order: `LogInitialize`, then the six subsystem `Initialize`s. -/
def stepStatuses (H : Host) : List NTSTATUS :=
  H.LogInitialize :: initOrder.map H.Initialize

/-- The status of the first step of `DllInitialize` that fails, if any does. -/
def firstFailure (H : Host) : Option NTSTATUS :=
  (stepStatuses H).find? fun st => !NT_SUCCESS st

/-- The `Error` line at the label that a failing `Initialize` of subsystem `k`
jumps to (`goto fail2` for Acpi up to `goto fail7` for Process). -/
def failMarker : Subsystem → Event
  | Subsystem.Acpi => Event.Error "fail2\n" []
  | Subsystem.System => Event.Error "fail3\n" []
  | Subsystem.Hypercall => Event.Error "fail4\n" []
  | Subsystem.BugCheck => Event.Error "fail5\n" []
  | Subsystem.Module => Event.Error "fail6\n" []
  | Subsystem.Process => Event.Error "fail7\n" []

/-! ## Sequences of `XenTouch` calls -/

/-- The arguments of one `XenTouch` call. -/
structure TouchCall where
  Name : String
  MajorVersion : ULONG
  MinorVersion : ULONG
  MicroVersion : ULONG
  BuildNumber : ULONG
  deriving DecidableEq, Repr

/-- A call is matching when it passes the version test at the head of
`XenTouch`, that is when it does not take `goto fail1`. -/
def TouchCall.matching (B : Build) (c : TouchCall) : Bool :=
  !decide (c.MajorVersion ≠ B.MAJOR_VERSION ∨
           c.MinorVersion ≠ B.MINOR_VERSION ∨
           c.MicroVersion ≠ B.MICRO_VERSION ∨
           c.BuildNumber ≠ B.BUILD_NUMBER)

/-- The function `XenTouch` applied to the arguments `c`. -/
def XenTouchCall (B : Build) (H : Host) (Reference : ULONG) (c : TouchCall) : Run ULONG :=
  XenTouch B H Reference c.Name c.MajorVersion c.MinorVersion c.MicroVersion c.BuildNumber

/-- One call of a sequence: the value of the counter before it, and its run
(whose state is the value of the counter after it). -/
structure TouchStep where
  before : ULONG
  run : Run ULONG
  deriving DecidableEq, Repr

/-- Consecutive `XenTouch` calls, each starting from the counter the previous
one left. A call that stops at an assertion is the last one. -/
def XenTouchSeq (B : Build) (H : Host) : ULONG → List TouchCall → List TouchStep
  | _, [] => []
  | Reference, c :: cs =>
    ⟨Reference, XenTouchCall B H Reference c⟩ ::
      (match (XenTouchCall B H Reference c).outcome with
        | Outcome.returned _ => XenTouchSeq B H (XenTouchCall B H Reference c).state cs
        | Outcome.assertFailed _ => [])

/-- A step probes when it calls `XenVersion`. -/
def TouchStep.probes (s : TouchStep) : Bool :=
  decide (Event.XenVersion ∈ s.run.trace)

/-- The positions, counted from `i`, of the steps that probe. -/
def probingCalls : Nat → List TouchStep → List Nat
  | _, [] => []
  | i, s :: ss => if s.probes then i :: probingCalls (i + 1) ss else probingCalls (i + 1) ss

/-- The position, counted from `i`, of the first matching call. -/
def firstMatching (B : Build) : Nat → List TouchCall → Option Nat
  | _, [] => none
  | i, c :: cs => if c.matching B then some i else firstMatching B (i + 1) cs

/-- The number of matching calls of a sequence. -/
def matchingCount (B : Build) (calls : List TouchCall) : Nat :=
  (calls.filter (TouchCall.matching B)).length

/-! ## Concrete build and hosts used in the examples -/

/-- The call `Touch("moduleA", 9, 1, 0, 100)`. -/
def touchA : TouchCall :=
  { Name := "moduleA", MajorVersion := 9, MinorVersion := 1, MicroVersion := 0,
    BuildNumber := 100 }

/-- The call `Touch("moduleC", 9, 0, 0, 100)`. -/
def touchC : TouchCall :=
  { Name := "moduleC", MajorVersion := 9, MinorVersion := 0, MicroVersion := 0,
    BuildNumber := 100 }


/-- A driver built as 9.1.0 (build 100). -/
def build910 : Build :=
  { MAJOR_VERSION := 9, MINOR_VERSION := 1, MICRO_VERSION := 0, BUILD_NUMBER := 100,
    DAY := 31, MONTH := 10, YEAR := 2013, XEN_INTERFACE_VERSION := 0x00030202 }

/-- A checked-build host on which everything succeeds. -/
def hostOk : Host :=
  { DBG := true
    InitSafeBootMode := 0
    XenVersion := (0, 4, 1)
    XenVersionExtra := (0, ".2")
    LogInitialize := 0
    LogAddDisposition := fun _ Argument _ => (0, 0x1000 + Argument)
    Initialize := fun _ => 0 }

/-- The host `hostOk`, except that the `Initialize` of subsystem `k` returns `status`. -/
def hostFailingAt (k : Subsystem) (status : NTSTATUS) : Host :=
  { hostOk with Initialize := fun s => if s = k then status else 0 }

/-- The value `(NTSTATUS)0xC0000001L`, `STATUS_UNSUCCESSFUL`. -/
def STATUS_UNSUCCESSFUL : NTSTATUS := 0xC0000001 - 4294967296

/-! ## Theorems -/

/-- A failing status is not `STATUS_SUCCESS`. -/
theorem ne_success_of_not_NT_SUCCESS {st : NTSTATUS} (h : NT_SUCCESS st = false) :
    st ≠ STATUS_SUCCESS := by
  intro h0
  subst h0
  simp [NT_SUCCESS, STATUS_SUCCESS] at h

/-- A call that does not match is refused and leaves the counter alone. -/
theorem XenTouchCall_of_not_matching (B : Build) (H : Host) (r : ULONG) (c : TouchCall)
    (h : c.matching B = false) :
    XenTouchCall B H r c
      = ⟨Outcome.returned STATUS_INCOMPATIBLE_DRIVER_BLOCKED, r,
         [Event.Info "MODULE '%s' NOT COMPATIBLE (REBOOT REQUIRED)\n" [Arg.str c.Name]]⟩ := by
  simp only [TouchCall.matching, Bool.not_eq_false', decide_eq_true_eq] at h
  simp [XenTouchCall, XenTouch, emit, h]

/-- A matching call on a non-zero counter only increments it. -/
theorem XenTouchCall_of_attached (B : Build) (H : Host) (r : ULONG) (c : TouchCall)
    (h : c.matching B = true) (hr : r ≠ 0) :
    XenTouchCall B H r c = ⟨Outcome.returned STATUS_SUCCESS, (r + 1) % ULONG_MOD, []⟩ := by
  simp only [TouchCall.matching, Bool.not_eq_true', decide_eq_false_iff_not] at h
  simp [XenTouchCall, XenTouch, h, hr]

/-- A matching call on the zero counter calls `XenVersion` and leaves the counter at 1. -/
theorem XenTouchCall_of_first (B : Build) (H : Host) (c : TouchCall)
    (h : c.matching B = true) :
    (XenTouchCall B H 0 c).state = 1 ∧ Event.XenVersion ∈ (XenTouchCall B H 0 c).trace := by
  simp only [TouchCall.matching, Bool.not_eq_true', decide_eq_false_iff_not] at h
  simp only [XenTouchCall, XenTouch, h, if_false, emit, ASSERT, ULONG_MOD]
  refine ⟨?_, ?_⟩
  · split_ifs <;> simp
  · simp

/-- Once the counter is non-zero, and as long as it cannot wrap, no call of a
sequence probes and no call lowers the counter. -/
theorem XenTouchSeq_of_attached (B : Build) (H : Host) :
    ∀ (calls : List TouchCall) (r i : Nat), r ≠ 0 → r + matchingCount B calls < ULONG_MOD →
      probingCalls i (XenTouchSeq B H r calls) = [] ∧
      ∀ s ∈ XenTouchSeq B H r calls, s.before ≤ s.run.state := by
  intro calls
  induction calls with
  | nil =>
    intro r i _ _
    simp [XenTouchSeq, probingCalls]
  | cons c cs ih =>
    intro r i hr hlt
    cases hm : c.matching B
    · have hc := XenTouchCall_of_not_matching B H r c hm
      have hcount : matchingCount B (c :: cs) = matchingCount B cs := by
        simp [matchingCount, hm]
      rw [hcount] at hlt
      obtain ⟨ih1, ih2⟩ := ih r (i + 1) hr hlt
      simp only [XenTouchSeq, hc]
      refine ⟨?_, ?_⟩
      · simp [probingCalls, TouchStep.probes, ih1]
      · intro s hs
        rcases List.mem_cons.mp hs with rfl | hs
        · simp
        · exact ih2 s hs
    · have hc := XenTouchCall_of_attached B H r c hm hr
      have hcount : matchingCount B (c :: cs) = matchingCount B cs + 1 := by
        simp [matchingCount, hm]
      rw [hcount] at hlt
      have hmod : (r + 1) % ULONG_MOD = r + 1 := Nat.mod_eq_of_lt (by omega)
      obtain ⟨ih1, ih2⟩ := ih (r + 1) (i + 1) (by omega) (by omega)
      simp only [XenTouchSeq, hc, hmod]
      refine ⟨?_, ?_⟩
      · simp [probingCalls, TouchStep.probes, ih1]
      · intro s hs
        rcases List.mem_cons.mp hs with rfl | hs
        · simp
        · exact ih2 s hs

/-- From the zero counter, and as long as the counter cannot wrap, the steps
that probe are exactly the first matching call, and no call lowers the counter. -/
theorem XenTouchSeq_of_zero (B : Build) (H : Host) :
    ∀ (calls : List TouchCall) (i : Nat), matchingCount B calls < ULONG_MOD →
      probingCalls i (XenTouchSeq B H 0 calls) = (firstMatching B i calls).toList ∧
      ∀ s ∈ XenTouchSeq B H 0 calls, s.before ≤ s.run.state := by
  intro calls
  induction calls with
  | nil =>
    intro i _
    simp [XenTouchSeq, probingCalls, firstMatching]
  | cons c cs ih =>
    intro i hlt
    cases hm : c.matching B
    · have hc := XenTouchCall_of_not_matching B H 0 c hm
      have hcount : matchingCount B (c :: cs) = matchingCount B cs := by
        simp [matchingCount, hm]
      rw [hcount] at hlt
      obtain ⟨ih1, ih2⟩ := ih (i + 1) hlt
      simp only [XenTouchSeq, hc]
      refine ⟨?_, ?_⟩
      · simp [probingCalls, TouchStep.probes, firstMatching, hm, ih1]
      · intro s hs
        rcases List.mem_cons.mp hs with rfl | hs
        · simp
        · exact ih2 s hs
    · obtain ⟨hst, hprobe⟩ := XenTouchCall_of_first B H c hm
      have hcount : matchingCount B (c :: cs) = matchingCount B cs + 1 := by
        simp [matchingCount, hm]
      rw [hcount] at hlt
      obtain ⟨t1, t2⟩ := XenTouchSeq_of_attached B H cs 1 (i + 1) (by omega) (by omega)
      simp only [XenTouchSeq, hst]
      refine ⟨?_, ?_⟩
      · cases (XenTouchCall B H 0 c).outcome <;>
          simp [probingCalls, TouchStep.probes, firstMatching, hm, hprobe, t1]
      · intro s hs
        rcases List.mem_cons.mp hs with rfl | hs
        · simp
        · cases hout : (XenTouchCall B H 0 c).outcome <;> rw [hout] at hs
          · exact t2 s hs
          · simp at hs

/-- Matching calls on a non-zero counter that cannot wrap are passed over: the
steps that probe are those of what follows them. -/
theorem probingCalls_replicate_attached (B : Build) (H : Host) (c : TouchCall)
    (hm : c.matching B = true) (rest : List TouchCall) :
    ∀ (n r i : Nat), r ≠ 0 → r + n < ULONG_MOD →
      probingCalls i (XenTouchSeq B H r (List.replicate n c ++ rest))
        = probingCalls (i + n) (XenTouchSeq B H (r + n) rest) := by
  intro n
  induction n with
  | zero =>
    intro r i _ _
    simp
  | succ n ih =>
    intro r i hr hlt
    have hc := XenTouchCall_of_attached B H r c hm hr
    have hmod : (r + 1) % ULONG_MOD = r + 1 := Nat.mod_eq_of_lt (by omega)
    rw [hmod] at hc
    have h := ih (r + 1) (i + 1) (by omega) (by omega)
    have e1 : i + 1 + n = i + (n + 1) := by omega
    have e2 : r + 1 + n = r + (n + 1) := by omega
    rw [e1, e2] at h
    rw [List.replicate_succ, List.cons_append, XenTouchSeq, hc, probingCalls]
    simpa [TouchStep.probes] using h

/-- A matching call on the zero counter that returns is a probing step, and
the calls after it start from counter 1. -/
theorem probingCalls_first (B : Build) (H : Host) (c : TouchCall) (rest : List TouchCall)
    (i : Nat) (st : NTSTATUS) (hm : c.matching B = true)
    (hret : (XenTouchCall B H 0 c).outcome = Outcome.returned st) :
    probingCalls i (XenTouchSeq B H 0 (c :: rest))
      = i :: probingCalls (i + 1) (XenTouchSeq B H 1 rest) := by
  obtain ⟨hst, hprobe⟩ := XenTouchCall_of_first B H c hm
  rw [XenTouchSeq, hret, hst, probingCalls]
  simp [TouchStep.probes, hprobe]

/-- The steps of what follows a run of matching calls on a non-zero counter
that cannot wrap are steps of the whole sequence. -/
theorem mem_XenTouchSeq_replicate_attached (B : Build) (H : Host) (c : TouchCall)
    (hm : c.matching B = true) (rest : List TouchCall) (s : TouchStep) :
    ∀ (n r : Nat), r ≠ 0 → r + n < ULONG_MOD → s ∈ XenTouchSeq B H (r + n) rest →
      s ∈ XenTouchSeq B H r (List.replicate n c ++ rest) := by
  intro n
  induction n with
  | zero =>
    intro r _ _ hs
    simpa using hs
  | succ n ih =>
    intro r hr hlt hs
    have hc := XenTouchCall_of_attached B H r c hm hr
    have hmod : (r + 1) % ULONG_MOD = r + 1 := Nat.mod_eq_of_lt (by omega)
    rw [hmod] at hc
    have e2 : r + (n + 1) = r + 1 + n := by omega
    rw [e2] at hs
    have h := ih (r + 1) (by omega) (by omega) hs
    rw [List.replicate_succ, List.cons_append, XenTouchSeq, hc]
    exact List.mem_cons_of_mem _ h

/-- The steps after a matching call on the zero counter that returns are steps
of the whole sequence. -/
theorem mem_XenTouchSeq_first (B : Build) (H : Host) (c : TouchCall) (rest : List TouchCall)
    (s : TouchStep) (st : NTSTATUS) (hm : c.matching B = true)
    (hret : (XenTouchCall B H 0 c).outcome = Outcome.returned st)
    (hs : s ∈ XenTouchSeq B H 1 rest) :
    s ∈ XenTouchSeq B H 0 (c :: rest) := by
  obtain ⟨hst, _⟩ := XenTouchCall_of_first B H c hm
  rw [XenTouchSeq, hret, hst]
  exact List.mem_cons_of_mem _ hs

/-- C1. With safe-boot off, `LogInitialize` successful, every step before `k`
successful and the `Initialize` of step `k` failing (and no assertion on
`LogAddDisposition` stopping a checked build first), `DllInitialize` calls
exactly the `Teardown`s of the steps before `k`, latest first, and exactly the
`Initialize`s of the steps up to and including `k`. -/
theorem DllInitialize_rollback_reverse (B : Build) (H : Host) (Driver : XEN_DRIVER)
    (k : Subsystem)
    (hsafe : H.InitSafeBootMode = 0)
    (hlog : NT_SUCCESS H.LogInitialize = true)
    (hassert : H.DBG = false ∨ LogAddDispositionsSucceed H Driver = true)
    (hprev : ∀ s : Subsystem, s.step < k.step → NT_SUCCESS (H.Initialize s) = true)
    (hfail : NT_SUCCESS (H.Initialize k) = false) :
    teardowns (DllInitialize B H Driver).trace = (initOrder.take k.step).reverse ∧
    initializes (DllInitialize B H Driver).trace = initOrder.take (k.step + 1) := by
  have hA := hprev Subsystem.Acpi
  have hS := hprev Subsystem.System
  have hH := hprev Subsystem.Hypercall
  have hB := hprev Subsystem.BugCheck
  have hM := hprev Subsystem.Module
  rcases hassert with hd | hd
  · cases k <;>
      simp_all [Subsystem.step, DllInitialize, DllInitialize.done, fail1, fail2, fail3, fail4,
        fail5, fail6, fail7, emit, ASSERT, IsZeroMemory, teardowns, initializes, initOrder]
  · simp only [LogAddDispositionsSucceed, Bool.and_eq_true] at hd
    cases k <;>
      simp_all [Subsystem.step, DllInitialize, DllInitialize.done, fail1, fail2, fail3, fail4,
        fail5, fail6, fail7, emit, ASSERT, IsZeroMemory, teardowns, initializes, initOrder]

/-- C1, at a concrete input: the third subsystem (Hypercall) fails, so System
and then Acpi are torn down and nothing after Hypercall is initialised. -/
theorem DllInitialize_rollback_reverse_witness :
    teardowns (DllInitialize build910 (hostFailingAt Subsystem.Hypercall STATUS_UNSUCCESSFUL)
        ⟨0, 0⟩).trace = [Subsystem.System, Subsystem.Acpi] ∧
    initializes (DllInitialize build910 (hostFailingAt Subsystem.Hypercall STATUS_UNSUCCESSFUL)
        ⟨0, 0⟩).trace = [Subsystem.Acpi, Subsystem.System, Subsystem.Hypercall] :=
  DllInitialize_rollback_reverse build910 (hostFailingAt Subsystem.Hypercall STATUS_UNSUCCESSFUL)
    ⟨0, 0⟩ Subsystem.Hypercall (by decide) (by decide) (Or.inr (by decide))
    (by intro s; cases s <;> decide) (by decide)

/-- C2, evaluated on the code: after a `DllInitialize` on which all six
subsystems were initialised, `DllUnload` tears down Process, Module, BugCheck,
Hypercall and System, and never calls `AcpiTeardown`, so its `Teardown`s are
not the reverse of the initialisation order. -/
theorem DllUnload_skips_AcpiTeardown :
    initializes (DllInitialize build910 hostOk ⟨0, 0⟩).trace = initOrder ∧
    teardowns (DllUnload build910 hostOk (DllInitialize build910 hostOk ⟨0, 0⟩).state).trace
      = [Subsystem.Process, Subsystem.Module, Subsystem.BugCheck, Subsystem.Hypercall,
         Subsystem.System] ∧
    teardowns (DllUnload build910 hostOk (DllInitialize build910 hostOk ⟨0, 0⟩).state).trace
      ≠ initOrder.reverse := by
  decide

/-- C3. From counter 0, two consecutive `XenTouch` calls carrying the
compiled-in version both return `STATUS_SUCCESS`, whatever the two names are;
the first call makes the probe (`XenVersion`, `XenVersionExtra`, the version
line) and the second call makes no call at all. The two hypervisor calls are
taken to succeed, as the code asserts, unless assertions are compiled out. -/
theorem XenTouch_twice_probes_once (B : Build) (H : Host) (Name1 Name2 : String)
    (hassert : H.DBG = false ∨
      (NT_SUCCESS H.XenVersion.1 = true ∧ NT_SUCCESS H.XenVersionExtra.1 = true)) :
    XenTouch B H 0 Name1 B.MAJOR_VERSION B.MINOR_VERSION B.MICRO_VERSION B.BUILD_NUMBER
      = ⟨Outcome.returned STATUS_SUCCESS, 1,
         [Event.XenVersion, Event.XenVersionExtra,
          Event.LogPrintf LOG_LEVEL.INFO "XEN: %u.%u%s (__XEN_INTERFACE_VERSION__ = %08x)\n"
            [Arg.num H.XenVersion.2.1, Arg.num H.XenVersion.2.2,
             Arg.str H.XenVersionExtra.2, Arg.num B.XEN_INTERFACE_VERSION]]⟩ ∧
    XenTouch B H
        (XenTouch B H 0 Name1 B.MAJOR_VERSION B.MINOR_VERSION B.MICRO_VERSION
          B.BUILD_NUMBER).state
        Name2 B.MAJOR_VERSION B.MINOR_VERSION B.MICRO_VERSION B.BUILD_NUMBER
      = ⟨Outcome.returned STATUS_SUCCESS, 2, []⟩ := by
  rcases hassert with hd | ⟨h1, h2⟩
  · simp [XenTouch, emit, ASSERT, ULONG_MOD, hd]
  · simp [XenTouch, emit, ASSERT, ULONG_MOD, h1, h2]

/-- C3, at the input of scenario A: `moduleA` then `moduleB`, both 9.1.0 (100). -/
theorem XenTouch_twice_probes_once_witness :
    XenTouch build910 hostOk 0 "moduleA" 9 1 0 100
      = ⟨Outcome.returned STATUS_SUCCESS, 1,
         [Event.XenVersion, Event.XenVersionExtra,
          Event.LogPrintf LOG_LEVEL.INFO "XEN: %u.%u%s (__XEN_INTERFACE_VERSION__ = %08x)\n"
            [Arg.num 4, Arg.num 1, Arg.str ".2", Arg.num 0x00030202]]⟩ ∧
    XenTouch build910 hostOk (XenTouch build910 hostOk 0 "moduleA" 9 1 0 100).state
        "moduleB" 9 1 0 100
      = ⟨Outcome.returned STATUS_SUCCESS, 2, []⟩ :=
  XenTouch_twice_probes_once build910 hostOk "moduleA" "moduleB"
    (Or.inr ⟨by decide, by decide⟩)

/-- C4. Whatever the counter is, a `XenTouch` call with a version component
that differs from the compiled-in one returns
`STATUS_INCOMPATIBLE_DRIVER_BLOCKED`, leaves the counter as it was, and its
only call is the one `Info` line that carries the caller's `Name`. -/
theorem XenTouch_mismatch_blocked (B : Build) (H : Host) (Reference : ULONG) (Name : String)
    (MajorVersion MinorVersion MicroVersion BuildNumber : ULONG)
    (hdiff : MajorVersion ≠ B.MAJOR_VERSION ∨ MinorVersion ≠ B.MINOR_VERSION ∨
      MicroVersion ≠ B.MICRO_VERSION ∨ BuildNumber ≠ B.BUILD_NUMBER) :
    XenTouch B H Reference Name MajorVersion MinorVersion MicroVersion BuildNumber
      = ⟨Outcome.returned STATUS_INCOMPATIBLE_DRIVER_BLOCKED, Reference,
         [Event.Info "MODULE '%s' NOT COMPATIBLE (REBOOT REQUIRED)\n" [Arg.str Name]]⟩ := by
  simp [XenTouch, emit, hdiff]

/-- C4, at the input of scenario B: `moduleC` asks for 9.0.0 (100) of a 9.1.0
build after one caller has already attached. -/
theorem XenTouch_mismatch_blocked_witness :
    XenTouch build910 hostOk 1 "moduleC" 9 0 0 100
      = ⟨Outcome.returned STATUS_INCOMPATIBLE_DRIVER_BLOCKED, 1,
         [Event.Info "MODULE '%s' NOT COMPATIBLE (REBOOT REQUIRED)\n" [Arg.str "moduleC"]]⟩ :=
  XenTouch_mismatch_blocked build910 hostOk 1 "moduleC" 9 0 0 100 (by decide)

/-- C6. With the safe-boot indicator above 0, `DllInitialize` returns
`STATUS_SUCCESS`, leaves the record untouched and calls nothing but the two
runtime set-up routines and `Trace`; `DllUnload` leaves the record untouched,
makes no log or subsystem lifecycle call, and returns `STATUS_SUCCESS` with only
its two `Trace` lines when the record is all-zero (the state its assertion
checks) or assertions are compiled out. -/
theorem safe_boot_no_op (B : Build) (H : Host) (Driver : XEN_DRIVER)
    (hsafe : H.InitSafeBootMode > 0) :
    DllInitialize B H Driver
      = ⟨Outcome.returned STATUS_SUCCESS, Driver,
         [Event.ExInitializeDriverRuntime, Event.WdmlibProcgrpInitialize,
          Event.Trace "====>\n", Event.Trace "<====\n"]⟩ ∧
    lifecycleCalls (DllInitialize B H Driver).trace = [] ∧
    (DllUnload B H Driver).state = Driver ∧
    lifecycleCalls (DllUnload B H Driver).trace = [] ∧
    (H.DBG = false ∨ IsZeroMemory Driver = true →
      DllUnload B H Driver
        = ⟨Outcome.returned STATUS_SUCCESS, Driver,
           [Event.Trace "====>\n", Event.Trace "<====\n"]⟩) := by
  refine ⟨?_, ?_, ?_, ?_, ?_⟩
  · simp [DllInitialize, DllInitialize.done, emit, hsafe]
  · simp [DllInitialize, DllInitialize.done, emit, hsafe, lifecycleCalls]
  · simp only [DllUnload, emit, ASSERT, hsafe, if_true]
    split <;> rfl
  · simp only [DllUnload, emit, ASSERT, hsafe, if_true]
    split <;> simp [lifecycleCalls]
  · intro h
    rcases h with h | h <;> simp [DllUnload, emit, ASSERT, hsafe, h]

/-- C6, at a concrete input: safe-boot mode 1 and an all-zero record. -/
theorem safe_boot_no_op_witness :
    DllInitialize build910 { hostOk with InitSafeBootMode := 1 } ⟨0, 0⟩
      = ⟨Outcome.returned STATUS_SUCCESS, ⟨0, 0⟩,
         [Event.ExInitializeDriverRuntime, Event.WdmlibProcgrpInitialize,
          Event.Trace "====>\n", Event.Trace "<====\n"]⟩ ∧
    DllUnload build910 { hostOk with InitSafeBootMode := 1 } ⟨0, 0⟩
      = ⟨Outcome.returned STATUS_SUCCESS, ⟨0, 0⟩,
         [Event.Trace "====>\n", Event.Trace "<====\n"]⟩ :=
  ⟨(safe_boot_no_op build910 { hostOk with InitSafeBootMode := 1 } ⟨0, 0⟩ (by decide)).1,
   (safe_boot_no_op build910 { hostOk with InitSafeBootMode := 1 } ⟨0, 0⟩ (by decide)).2.2.2.2
     (Or.inr (by decide))⟩

/-- C7. With safe-boot off (and no assertion stopping a checked build: the
record is zero on entry and both `LogAddDisposition` calls succeed),
`DllInitialize` returns `STATUS_SUCCESS` exactly when `LogInitialize` and the
six subsystem `Initialize`s all succeed, and otherwise returns the status of
the first step that failed. -/
theorem DllInitialize_returns_first_failure (B : Build) (H : Host) (Driver : XEN_DRIVER)
    (hsafe : H.InitSafeBootMode = 0)
    (hassert : H.DBG = false ∨
      (IsZeroMemory Driver = true ∧ LogAddDispositionsSucceed H Driver = true)) :
    ((DllInitialize B H Driver).outcome = Outcome.returned STATUS_SUCCESS ↔
      (NT_SUCCESS H.LogInitialize = true ∧ ∀ s, NT_SUCCESS (H.Initialize s) = true)) ∧
    (∀ st, firstFailure H = some st →
      (DllInitialize B H Driver).outcome = Outcome.returned st) := by
  have key : (DllInitialize B H Driver).outcome =
      Outcome.returned ((firstFailure H).getD STATUS_SUCCESS) := by
    cases h0 : NT_SUCCESS H.LogInitialize
    · rcases hassert with hd | ⟨hz, hd⟩ <;>
        simp_all [DllInitialize, fail1, emit, ASSERT, firstFailure, stepStatuses]
    have hd : H.DBG = false ∨ LogAddDispositionsSucceed H Driver = true := by
      rcases hassert with hd | ⟨_, hd⟩
      · exact Or.inl hd
      · exact Or.inr hd
    simp only [LogAddDispositionsSucceed, Bool.and_eq_true] at hd
    cases h1 : NT_SUCCESS (H.Initialize Subsystem.Acpi)
    · rcases hd with hd | hd <;>
        simp_all [DllInitialize, fail1, fail2, emit, ASSERT, IsZeroMemory, firstFailure,
          stepStatuses, initOrder]
    cases h2 : NT_SUCCESS (H.Initialize Subsystem.System)
    · rcases hd with hd | hd <;>
        simp_all [DllInitialize, fail1, fail2, fail3, emit, ASSERT, IsZeroMemory, firstFailure,
          stepStatuses, initOrder]
    cases h3 : NT_SUCCESS (H.Initialize Subsystem.Hypercall)
    · rcases hd with hd | hd <;>
        simp_all [DllInitialize, fail1, fail2, fail3, fail4, emit, ASSERT, IsZeroMemory,
          firstFailure, stepStatuses, initOrder]
    cases h4 : NT_SUCCESS (H.Initialize Subsystem.BugCheck)
    · rcases hd with hd | hd <;>
        simp_all [DllInitialize, fail1, fail2, fail3, fail4, fail5, emit, ASSERT, IsZeroMemory,
          firstFailure, stepStatuses, initOrder]
    cases h5 : NT_SUCCESS (H.Initialize Subsystem.Module)
    · rcases hd with hd | hd <;>
        simp_all [DllInitialize, fail1, fail2, fail3, fail4, fail5, fail6, emit, ASSERT,
          IsZeroMemory, firstFailure, stepStatuses, initOrder]
    cases h6 : NT_SUCCESS (H.Initialize Subsystem.Process)
    · rcases hd with hd | hd <;>
        simp_all [DllInitialize, fail1, fail2, fail3, fail4, fail5, fail6, fail7, emit, ASSERT,
          IsZeroMemory, firstFailure, stepStatuses, initOrder]
    rcases hd with hd | hd <;>
      simp_all [DllInitialize, DllInitialize.done, emit, ASSERT, firstFailure, stepStatuses,
        initOrder]
  have hall : (NT_SUCCESS H.LogInitialize = true ∧ ∀ s, NT_SUCCESS (H.Initialize s) = true) ↔
      firstFailure H = none := by
    simp only [firstFailure, stepStatuses, initOrder, List.find?_eq_none, List.mem_cons,
      List.mem_map, List.mem_singleton, List.not_mem_nil, or_false]
    constructor
    · rintro ⟨h0, hs⟩ st hst
      rcases hst with rfl | ⟨s, _, rfl⟩
      · simp [h0]
      · simp [hs s]
    · intro h
      refine ⟨by simpa using h H.LogInitialize (Or.inl rfl), fun s => ?_⟩
      have := h (H.Initialize s) (Or.inr ⟨s, by cases s <;> simp, rfl⟩)
      simpa using this
  refine ⟨?_, ?_⟩
  · rw [key, hall]
    cases hf : firstFailure H with
    | none => simp
    | some st =>
      have hst : NT_SUCCESS st = false := by
        have := List.find?_some hf
        simpa using this
      simpa using ne_success_of_not_NT_SUCCESS hst
  · intro st hst
    rw [key, hst]
    rfl

/-- C7, at the input of scenario C: the third subsystem fails with
`STATUS_UNSUCCESSFUL`, and that is the status `DllInitialize` returns. -/
theorem DllInitialize_returns_first_failure_witness :
    (DllInitialize build910 (hostFailingAt Subsystem.Hypercall STATUS_UNSUCCESSFUL)
      ⟨0, 0⟩).outcome = Outcome.returned STATUS_UNSUCCESSFUL :=
  (DllInitialize_returns_first_failure build910
    (hostFailingAt Subsystem.Hypercall STATUS_UNSUCCESSFUL) ⟨0, 0⟩ (by decide)
    (Or.inr ⟨by decide, by decide⟩)).2 STATUS_UNSUCCESSFUL (by decide)

/-- C5. With safe-boot off, `DllUnload` returns (its assertion holds) and leaves
the record all-zero, from any prior record. If the record is all-zero when
`DllInitialize` is entered, the run never stops at `ASSERT(IsZeroMemory(...))`,
and whenever it returns a failing status the record is all-zero again. -/
theorem Driver_zero_on_terminal_paths (B : Build) (H : Host) (Driver : XEN_DRIVER)
    (hsafe : H.InitSafeBootMode = 0) :
    ((DllUnload B H Driver).outcome = Outcome.returned STATUS_SUCCESS ∧
      (DllUnload B H Driver).state = ⟨0, 0⟩ ∧
      IsZeroMemory (DllUnload B H Driver).state = true) ∧
    (IsZeroMemory Driver = true →
      (DllInitialize B H Driver).outcome ≠ Outcome.assertFailed Assertion.IsZeroMemory_Driver ∧
      ∀ st, (DllInitialize B H Driver).outcome = Outcome.returned st →
        NT_SUCCESS st = false →
        (DllInitialize B H Driver).state = ⟨0, 0⟩ ∧
        IsZeroMemory (DllInitialize B H Driver).state = true) := by
  refine ⟨?_, ?_⟩
  · simp [DllUnload, emit, ASSERT, IsZeroMemory, hsafe]
  · intro hz
    have hD : Driver = ⟨0, 0⟩ := by
      cases Driver
      simp_all [IsZeroMemory]
    subst hD
    cases h0 : NT_SUCCESS H.LogInitialize
    · simp_all [DllInitialize, fail1, emit, ASSERT, IsZeroMemory]
    have hadd : H.DBG = false ∨ LogAddDispositionsSucceed H ⟨0, 0⟩ = true ∨
        (H.DBG = true ∧ LogAddDispositionsSucceed H ⟨0, 0⟩ = false) := by
      cases H.DBG <;> cases LogAddDispositionsSucceed H ⟨0, 0⟩ <;> simp
    rcases hadd with hd | hd | ⟨hdbg, hd⟩
    case inr.inr.intro =>
      simp only [LogAddDispositionsSucceed, Bool.and_eq_false_iff] at hd
      cases h1 : NT_SUCCESS (H.LogAddDisposition [LOG_LEVEL.TRACE, LOG_LEVEL.CRITICAL]
          XEN_PORT 0).1
      · simp_all [DllInitialize, emit, ASSERT]
      · simp_all [DllInitialize, emit, ASSERT]
    all_goals
      simp only [LogAddDispositionsSucceed, Bool.and_eq_true] at hd
      cases h1 : NT_SUCCESS (H.Initialize Subsystem.Acpi)
      · simp_all [DllInitialize, fail1, fail2, emit, ASSERT, IsZeroMemory]
      cases h2 : NT_SUCCESS (H.Initialize Subsystem.System)
      · simp_all [DllInitialize, fail1, fail2, fail3, emit, ASSERT, IsZeroMemory]
      cases h3 : NT_SUCCESS (H.Initialize Subsystem.Hypercall)
      · simp_all [DllInitialize, fail1, fail2, fail3, fail4, emit, ASSERT, IsZeroMemory]
      cases h4 : NT_SUCCESS (H.Initialize Subsystem.BugCheck)
      · simp_all [DllInitialize, fail1, fail2, fail3, fail4, fail5, emit, ASSERT, IsZeroMemory]
      cases h5 : NT_SUCCESS (H.Initialize Subsystem.Module)
      · simp_all [DllInitialize, fail1, fail2, fail3, fail4, fail5, fail6, emit, ASSERT,
          IsZeroMemory]
      cases h6 : NT_SUCCESS (H.Initialize Subsystem.Process)
      · simp_all [DllInitialize, fail1, fail2, fail3, fail4, fail5, fail6, fail7, emit, ASSERT,
          IsZeroMemory]
      simp_all [DllInitialize, DllInitialize.done, emit, ASSERT, STATUS_SUCCESS, NT_SUCCESS]

/-- C5, at concrete inputs: unloading a populated record zeroes it, and a load
that fails at the fifth subsystem returns the failing status with the record
all-zero. -/
theorem Driver_zero_on_terminal_paths_witness :
    (DllUnload build910 hostOk ⟨0x10E9, 0x1012⟩).state = ⟨0, 0⟩ ∧
    (DllInitialize build910 (hostFailingAt Subsystem.Module STATUS_UNSUCCESSFUL)
      ⟨0, 0⟩).outcome = Outcome.returned STATUS_UNSUCCESSFUL ∧
    (DllInitialize build910 (hostFailingAt Subsystem.Module STATUS_UNSUCCESSFUL)
      ⟨0, 0⟩).state = ⟨0, 0⟩ :=
  ⟨(Driver_zero_on_terminal_paths build910 hostOk ⟨0x10E9, 0x1012⟩ (by decide)).1.2.1,
   by decide,
   (((Driver_zero_on_terminal_paths build910
      (hostFailingAt Subsystem.Module STATUS_UNSUCCESSFUL) ⟨0, 0⟩ (by decide)).2
      (by decide)).2 STATUS_UNSUCCESSFUL (by decide) (by decide)).1⟩

/-- C8, as the claim states it, fails: when the first subsystem (Acpi) fails,
`DllInitialize` emits two `Error` lines, `fail2` and then `fail1`, not one. -/
theorem DllInitialize_failure_lines_not_single :
    errorLines (DllInitialize build910 (hostFailingAt Subsystem.Acpi STATUS_UNSUCCESSFUL)
        ⟨0, 0⟩).trace
      = [Event.Error "fail2\n" [], Event.Error "fail1 (%08x)" [Arg.num STATUS_UNSUCCESSFUL]] ∧
    (errorLines (DllInitialize build910 (hostFailingAt Subsystem.Acpi STATUS_UNSUCCESSFUL)
        ⟨0, 0⟩).trace).length ≠ 1 := by
  decide

/-- C8, amended. With safe-boot off: when subsystem step `k` is the first to
fail, the `Error` lines of `DllInitialize` are the marker of the label of step
`k`, then the markers of the labels of the earlier steps, latest first, then
the `fail1` line carrying the status: `k + 2` lines, the first of which
identifies step `k`. When `LogInitialize` itself fails, the `fail1` line is the
only one. -/
theorem DllInitialize_failure_lines (B : Build) (H : Host) (Driver : XEN_DRIVER)
    (hsafe : H.InitSafeBootMode = 0) :
    (∀ k : Subsystem,
      NT_SUCCESS H.LogInitialize = true →
      (H.DBG = false ∨ LogAddDispositionsSucceed H Driver = true) →
      (∀ s : Subsystem, s.step < k.step → NT_SUCCESS (H.Initialize s) = true) →
      NT_SUCCESS (H.Initialize k) = false →
      errorLines (DllInitialize B H Driver).trace
        = (initOrder.take (k.step + 1)).reverse.map failMarker
            ++ [Event.Error "fail1 (%08x)" [Arg.num (H.Initialize k)]] ∧
      (errorLines (DllInitialize B H Driver).trace).length = k.step + 2 ∧
      (errorLines (DllInitialize B H Driver).trace).head? = some (failMarker k)) ∧
    (NT_SUCCESS H.LogInitialize = false →
      errorLines (DllInitialize B H Driver).trace
        = [Event.Error "fail1 (%08x)" [Arg.num H.LogInitialize]]) := by
  refine ⟨?_, ?_⟩
  · intro k hlog hassert hprev hfail
    have hA := hprev Subsystem.Acpi
    have hS := hprev Subsystem.System
    have hH := hprev Subsystem.Hypercall
    have hB := hprev Subsystem.BugCheck
    have hM := hprev Subsystem.Module
    rcases hassert with hd | hd
    · cases k <;>
        simp_all [Subsystem.step, DllInitialize, fail1, fail2, fail3, fail4,
          fail5, fail6, fail7, emit, ASSERT, IsZeroMemory, errorLines, initOrder, failMarker]
    · simp only [LogAddDispositionsSucceed, Bool.and_eq_true] at hd
      cases k <;>
        simp_all [Subsystem.step, DllInitialize, fail1, fail2, fail3, fail4,
          fail5, fail6, fail7, emit, ASSERT, IsZeroMemory, errorLines, initOrder, failMarker]
  · intro hlog
    by_cases hc : (H.DBG && !IsZeroMemory Driver) = true <;>
      simp [DllInitialize, fail1, emit, ASSERT, hsafe, hlog, hc, errorLines]

/-- C8 amended, at the input of scenario C: the third subsystem fails and four
`Error` lines follow, `fail4` first. -/
theorem DllInitialize_failure_lines_witness :
    errorLines (DllInitialize build910 (hostFailingAt Subsystem.Hypercall STATUS_UNSUCCESSFUL)
        ⟨0, 0⟩).trace
      = [Event.Error "fail4\n" [], Event.Error "fail3\n" [], Event.Error "fail2\n" [],
         Event.Error "fail1 (%08x)" [Arg.num STATUS_UNSUCCESSFUL]] :=
  ((DllInitialize_failure_lines build910 (hostFailingAt Subsystem.Hypercall STATUS_UNSUCCESSFUL)
      ⟨0, 0⟩ (by decide)).1 Subsystem.Hypercall (by decide) (Or.inr (by decide))
      (by intro s; cases s <;> decide) (by decide)).1

/-- C10. With safe-boot off and every step succeeding, `DllInitialize` returns
`STATUS_SUCCESS` and its calls are, in this order and once each:
`LogInitialize`, the trace+critical disposition on port 0xE9, the
info/warning/error/critical disposition on port 0x12, then the `Initialize` of
Acpi, System, Hypercall, BugCheck, Module and Process; no `Teardown`, no
removal. On every run, the `Initialize` calls made are an initial part of that
order and all of them but the last have succeeded. -/
theorem DllInitialize_success_order (B : Build) (H : Host) (Driver : XEN_DRIVER) :
    (H.InitSafeBootMode = 0 →
      NT_SUCCESS H.LogInitialize = true →
      LogAddDispositionsSucceed H Driver = true →
      (∀ s, NT_SUCCESS (H.Initialize s) = true) →
      (DllInitialize B H Driver).outcome = Outcome.returned STATUS_SUCCESS ∧
      lifecycleCalls (DllInitialize B H Driver).trace
        = [Event.LogInitialize,
           Event.LogAddDisposition [LOG_LEVEL.TRACE, LOG_LEVEL.CRITICAL] 0xE9,
           Event.LogAddDisposition
             [LOG_LEVEL.INFO, LOG_LEVEL.WARNING, LOG_LEVEL.ERROR, LOG_LEVEL.CRITICAL] 0x12,
           Event.Initialize Subsystem.Acpi, Event.Initialize Subsystem.System,
           Event.Initialize Subsystem.Hypercall, Event.Initialize Subsystem.BugCheck,
           Event.Initialize Subsystem.Module, Event.Initialize Subsystem.Process] ∧
      (DllInitialize B H Driver).trace
        = [Event.ExInitializeDriverRuntime, Event.WdmlibProcgrpInitialize,
           Event.Trace "====>\n",
           Event.LogInitialize,
           Event.LogAddDisposition [LOG_LEVEL.TRACE, LOG_LEVEL.CRITICAL] 0xE9,
           Event.LogAddDisposition
             [LOG_LEVEL.INFO, LOG_LEVEL.WARNING, LOG_LEVEL.ERROR, LOG_LEVEL.CRITICAL] 0x12,
           Event.Info "%d.%d.%d (%d) (%02d.%02d.%04d)\n"
             [Arg.num B.MAJOR_VERSION, Arg.num B.MINOR_VERSION, Arg.num B.MICRO_VERSION,
              Arg.num B.BUILD_NUMBER, Arg.num B.DAY, Arg.num B.MONTH, Arg.num B.YEAR],
           Event.Initialize Subsystem.Acpi, Event.Initialize Subsystem.System,
           Event.Initialize Subsystem.Hypercall, Event.Initialize Subsystem.BugCheck,
           Event.Initialize Subsystem.Module, Event.Initialize Subsystem.Process,
           Event.Trace "<====\n"]) ∧
    (∃ n, initializes (DllInitialize B H Driver).trace = initOrder.take n ∧
      ∀ s ∈ initOrder.take (n - 1), NT_SUCCESS (H.Initialize s) = true) := by
  refine ⟨?_, ?_⟩
  · intro hsafe hlog hadd hinit
    simp only [LogAddDispositionsSucceed, Bool.and_eq_true, XEN_PORT, QEMU_PORT] at hadd
    simp [DllInitialize, DllInitialize.done, emit, ASSERT, lifecycleCalls, hsafe, hlog, hadd,
      hinit, XEN_PORT, QEMU_PORT]
  · by_cases hsafe : H.InitSafeBootMode > 0
    · exact ⟨0, by simp [DllInitialize, DllInitialize.done, emit, hsafe, initializes], by simp⟩
    cases h0 : NT_SUCCESS H.LogInitialize
    · refine ⟨0, ?_, by simp⟩
      by_cases hc : (H.DBG && !IsZeroMemory Driver) = true <;>
        simp [DllInitialize, fail1, emit, ASSERT, hsafe, h0, hc, initializes]
    have hadd : (H.DBG = true ∧ LogAddDispositionsSucceed H Driver = false) ∨
        H.DBG = false ∨ LogAddDispositionsSucceed H Driver = true := by
      cases H.DBG <;> cases LogAddDispositionsSucceed H Driver <;> simp
    rcases hadd with ⟨hdbg, hd⟩ | hd | hd
    · simp only [LogAddDispositionsSucceed, Bool.and_eq_false_iff] at hd
      refine ⟨0, ?_, by simp⟩
      cases h1 : NT_SUCCESS (H.LogAddDisposition [LOG_LEVEL.TRACE, LOG_LEVEL.CRITICAL]
          XEN_PORT Driver.TraceDisposition).1 <;>
        simp_all [DllInitialize, emit, ASSERT, initializes]
    all_goals
      simp only [LogAddDispositionsSucceed, Bool.and_eq_true] at hd
      cases h1 : NT_SUCCESS (H.Initialize Subsystem.Acpi)
      · exact ⟨1, by simp_all [DllInitialize, fail1, fail2, emit, ASSERT, IsZeroMemory,
          initializes, initOrder], by simp⟩
      cases h2 : NT_SUCCESS (H.Initialize Subsystem.System)
      · exact ⟨2, by simp_all [DllInitialize, fail1, fail2, fail3, emit, ASSERT, IsZeroMemory,
          initializes, initOrder], by simp_all [initOrder]⟩
      cases h3 : NT_SUCCESS (H.Initialize Subsystem.Hypercall)
      · exact ⟨3, by simp_all [DllInitialize, fail1, fail2, fail3, fail4, emit, ASSERT,
          IsZeroMemory, initializes, initOrder], by simp_all [initOrder]⟩
      cases h4 : NT_SUCCESS (H.Initialize Subsystem.BugCheck)
      · exact ⟨4, by simp_all [DllInitialize, fail1, fail2, fail3, fail4, fail5, emit, ASSERT,
          IsZeroMemory, initializes, initOrder], by simp_all [initOrder]⟩
      cases h5 : NT_SUCCESS (H.Initialize Subsystem.Module)
      · exact ⟨5, by simp_all [DllInitialize, fail1, fail2, fail3, fail4, fail5, fail6, emit,
          ASSERT, IsZeroMemory, initializes, initOrder], by simp_all [initOrder]⟩
      cases h6 : NT_SUCCESS (H.Initialize Subsystem.Process)
      · exact ⟨6, by simp_all [DllInitialize, fail1, fail2, fail3, fail4, fail5, fail6, fail7,
          emit, ASSERT, IsZeroMemory, initializes, initOrder], by simp_all [initOrder]⟩
      · exact ⟨6, by simp_all [DllInitialize, DllInitialize.done, emit, ASSERT, initializes,
          initOrder], by simp_all [initOrder]⟩

/-- C10, at a concrete input: the host on which everything succeeds. -/
theorem DllInitialize_success_order_witness :
    (DllInitialize build910 hostOk ⟨0, 0⟩).outcome = Outcome.returned STATUS_SUCCESS ∧
    lifecycleCalls (DllInitialize build910 hostOk ⟨0, 0⟩).trace
      = [Event.LogInitialize,
         Event.LogAddDisposition [LOG_LEVEL.TRACE, LOG_LEVEL.CRITICAL] 0xE9,
         Event.LogAddDisposition
           [LOG_LEVEL.INFO, LOG_LEVEL.WARNING, LOG_LEVEL.ERROR, LOG_LEVEL.CRITICAL] 0x12,
         Event.Initialize Subsystem.Acpi, Event.Initialize Subsystem.System,
         Event.Initialize Subsystem.Hypercall, Event.Initialize Subsystem.BugCheck,
         Event.Initialize Subsystem.Module, Event.Initialize Subsystem.Process] :=
  ⟨((DllInitialize_success_order build910 hostOk ⟨0, 0⟩).1 (by decide) (by decide) (by decide)
      (by intro s; cases s <;> decide)).1,
   ((DllInitialize_success_order build910 hostOk ⟨0, 0⟩).1 (by decide) (by decide) (by decide)
      (by intro s; cases s <;> decide)).2.1⟩

/-- C9, as the claim states it, fails: with the counter taken modulo 2^32,
2^32 + 1 matching calls from counter 0 make the probe twice, at the first call
and again at call number 2^32 (counted from 0); in between, the call that
finds the counter at 2^32 - 1 leaves it at 0. -/
theorem XenTouch_probes_again_after_wrap :
    probingCalls 0 (XenTouchSeq build910 hostOk 0 (List.replicate 4294967297 touchA))
      = [0, 4294967296] ∧
    (⟨4294967295, ⟨Outcome.returned STATUS_SUCCESS, 0, []⟩⟩ : TouchStep)
      ∈ XenTouchSeq build910 hostOk 0 (List.replicate 4294967297 touchA) := by
  have hrep : List.replicate 4294967297 touchA
      = touchA :: (List.replicate 4294967294 touchA ++ [touchA, touchA]) := by
    rw [show (4294967297 : Nat) = 4294967294 + 2 + 1 from rfl, List.replicate_succ,
      List.replicate_add]
    rfl
  have hfirst := probingCalls_first build910 hostOk touchA
    (List.replicate 4294967294 touchA ++ [touchA, touchA]) 0 STATUS_SUCCESS
    (by decide) (by decide)
  have hmid := probingCalls_replicate_attached build910 hostOk touchA (by decide)
    [touchA, touchA] 4294967294 1 1 (by decide) (by decide)
  have hend : probingCalls (1 + 4294967294)
      (XenTouchSeq build910 hostOk (1 + 4294967294) [touchA, touchA]) = [4294967296] := by
    decide
  have hwrap : (⟨4294967295, ⟨Outcome.returned STATUS_SUCCESS, 0, []⟩⟩ : TouchStep)
      ∈ XenTouchSeq build910 hostOk (1 + 4294967294) [touchA, touchA] := by
    decide
  refine ⟨?_, ?_⟩
  · rw [hrep, hfirst, hmid, hend]
  · rw [hrep]
    exact mem_XenTouchSeq_first build910 hostOk touchA _ _ STATUS_SUCCESS (by decide)
      (by decide)
      (mem_XenTouchSeq_replicate_attached build910 hostOk touchA (by decide) _ _
        4294967294 1 (by decide) (by decide) hwrap)

/-- C9, amended. From counter 0, for every sequence of `XenTouch` calls with
fewer than 2^32 matching calls, the calls that probe are exactly the first
matching call (so there is at most one), and no call lowers the counter. -/
theorem XenTouch_one_shot_latch (B : Build) (H : Host) (calls : List TouchCall)
    (hlen : matchingCount B calls < ULONG_MOD) :
    probingCalls 0 (XenTouchSeq B H 0 calls) = (firstMatching B 0 calls).toList ∧
    (probingCalls 0 (XenTouchSeq B H 0 calls)).length ≤ 1 ∧
    ∀ s ∈ XenTouchSeq B H 0 calls, s.before ≤ s.run.state := by
  obtain ⟨h1, h2⟩ := XenTouchSeq_of_zero B H calls 0 hlen
  refine ⟨h1, ?_, h2⟩
  rw [h1]
  cases firstMatching B 0 calls <;> simp

/-- C9 amended, at a concrete input: a refused call, then two matching calls
and another refused one; only the call at position 1 probes. -/
theorem XenTouch_one_shot_latch_witness :
    probingCalls 0 (XenTouchSeq build910 hostOk 0 [touchC, touchA, touchA, touchC]) = [1] :=
  (XenTouch_one_shot_latch build910 hostOk [touchC, touchA, touchA, touchC] (by decide)).1

end Xen
